import Mathlib

/-!
# Verification of the vcharacter-sales deterministic game engine

Shallow embedding of the sales-game engine (`src/lib/sales/engine.ts`,
`src/lib/sales/negotiation.ts`, `src/lib/sales/clients.ts`, `src/lib/config.ts`,
`src/lib/dice.ts`) in Lean 4, together with theorems settling the frozen claims
about it.

Modelling conventions:
* JavaScript `number` values that the engine only ever holds as integers
  (money, rolls, stats, patience, resistance, budgets) are modelled as `Int`.
* Fractional literals (`0.15`, `0.1`, `1.25`, ...) and divisions are modelled
  exactly over `ℚ`; `Math.floor` is `Int.floor`.  At the magnitudes the game
  produces these formulas are exact, so the rational model is faithful.
* `Math.floor(x / 2)` on an integer `x` is floor division `Int.fdiv x 2`.
* Narrative strings (the `narrative` fields and the `effect` texts of the
  event tables) are pure presentation and are omitted; `description` strings of
  modifiers are kept verbatim because `getPitchModifier` / `calculatePitchValue`
  pattern-match on them.
* `Date.now()` timestamps carry no game information; `startedAt` is dropped and
  `endedAt` is modelled as a `Bool` flag recording whether it has been set.
* Functions that `throw` in TypeScript are modelled with `Except String`.
* Character stats are stored as their `.modifier` values (the only field the
  engine ever reads).
-/

namespace Sales

-- ===========================================================================
-- Data model (src/lib/types.ts, src/lib/sales/types.ts)
-- ===========================================================================

/-- The six character stats (keys of `character.stats`). -/
inductive StatName
  | str | dex | con | int | wis | cha
deriving DecidableEq

/-- The six stat modifiers of a character (each field is the `.modifier` of the
corresponding entry of `character.stats`). -/
structure StatBlock where
  str : Int
  dex : Int
  con : Int
  int : Int
  wis : Int
  cha : Int
deriving DecidableEq

/-- Look a stat modifier up by name (`character.stats[key].modifier`). -/
def StatBlock.get (s : StatBlock) : StatName → Int
  | .str => s.str
  | .dex => s.dex
  | .con => s.con
  | .int => s.int
  | .wis => s.wis
  | .cha => s.cha

/-- The six elements. -/
inductive Element
  | fire | water | earth | air | wood | metal
deriving DecidableEq

/-- The twelve spirit animals. -/
inductive SpiritAnimal
  | wolf | bear | eagle | dragon | octopus | owl
  | tiger | deer | spider | whale | elephant | frog
deriving DecidableEq

/-- Display name of a spirit animal, as used in the `spirit:` choice tag. -/
def spiritAnimalName : SpiritAnimal → String
  | .wolf => "Wolf"
  | .bear => "Bear"
  | .eagle => "Eagle"
  | .dragon => "Dragon"
  | .octopus => "Octopus"
  | .owl => "Owl"
  | .tiger => "Tiger"
  | .deer => "Deer"
  | .spider => "Spider"
  | .whale => "Whale"
  | .elephant => "Elephant"
  | .frog => "Frog"

/-- Character traits (the `sex` trait is never read by the engine and is
omitted). -/
structure Traits where
  element : Element
  spiritAnimal : SpiritAnimal
deriving DecidableEq

/-- A stored character, restricted to the data the sales engine reads. -/
structure StoredCharacter where
  stats : StatBlock
  traits : Traits
deriving DecidableEq

/-- Modifier kind: `'buff' | 'debuff'` (the `type` field of the source;
renamed because `type` is a Lean keyword). -/
inductive ModifierKind
  | buff | debuff
deriving DecidableEq

/-- An active temporary modifier (`ActiveModifier` of `sales/types.ts`). -/
structure ActiveModifier where
  description : String
  mtype : ModifierKind
  value : Int
  source : String
  phasesRemaining : Int
deriving DecidableEq

/-- Sales territories. -/
inductive Territory
  | tech | retail | finance
deriving DecidableEq

/-- A negotiation client. -/
structure Client where
  name : String
  territory : Territory
  patience : Int
  maxPatience : Int
  budget : Int
  resistance : Int
  dealValue : Int
  active : Bool
deriving DecidableEq

/-- The five body-language outcomes. -/
inductive BodyLanguage
  | arms_crossed | skeptical | neutral | interested | engaged
deriving DecidableEq

/-- The nine game phases. -/
inductive Phase
  | assignment | first_trip | first_client | crossroads | quarter_event
  | vp_meeting | whale_prep | whale | quarter_end
deriving DecidableEq

/-- The five final tiers. -/
inductive Tier
  | fired | under_review | employed | promotion | legendary
deriving DecidableEq

/-- Crossroads choices (phase 4). -/
inductive CrossroadsChoice
  | grind | climb | hunt
deriving DecidableEq

/-- Display tag of a crossroads choice (used in the `choices` log). -/
def crossroadsChoiceName : CrossroadsChoice → String
  | .grind => "grind"
  | .climb => "climb"
  | .hunt => "hunt"

/-- A recorded negotiation round.  Of the full `NegotiationRoundResult`
record, the engine itself only ever reads `moneyGained` (in the Elephant
spirit ability), so only that field is modelled. -/
structure RoundRec where
  moneyGained : Int
deriving DecidableEq

/-- The aggregate game state (`SalesGameState`), restricted to the fields the
embedded operations read or write. -/
structure SalesGameState where
  character : StoredCharacter
  currentPhase : Phase := Phase.assignment
  startingMoney : Int := 10000
  budgetScale : ℚ := 1
  money : Int := 10000
  legendaryUnlocked : Bool := false
  spiritAbilityUsed : Bool := false
  modifiers : List ActiveModifier := []
  choices : List String := []
  territory : Option Territory := none
  journeyEvent : Option String := none
  driveTrouble : Option String := none
  quarterEvent : Option String := none
  luckyItem : Option String := none
  crossroadsChoice : Option CrossroadsChoice := none
  crossroadsResult : Option String := none
  firstClientRounds : List RoundRec := []
  whaleRounds : List RoundRec := []
  tier : Option Tier := none
  endedAt : Bool := false
deriving DecidableEq

-- ===========================================================================
-- Configuration (src/lib/config.ts, SALES_CONFIG)
-- ===========================================================================

/-- The keys of `SALES_CONFIG` used by the embedded operations (`vpChoices`
is only read by `applyVPChoice`/`completeWhale`, which no claim mentions). -/
structure SalesConfig where
  baseMoney : Int
  chaMultiplier : Int
  intMultiplier : Int
  wisMultiplier : Int
  minimumMoney : Int
  budgetScaleFloor : ℚ
  promotionThreshold : ℚ
  legendaryThreshold : ℚ

/-- `SALES_CONFIG` (the thresholds `2.0` and `3.0` are the rationals `2`, `3`). -/
def SALES_CONFIG : SalesConfig :=
  { baseMoney := 10000
    chaMultiplier := 2000
    intMultiplier := 1000
    wisMultiplier := 500
    minimumMoney := 3000
    budgetScaleFloor := 0.5
    promotionThreshold := 2
    legendaryThreshold := 3 }

-- ===========================================================================
-- CON resilience helper (engine.ts)
-- ===========================================================================

/-- `getConAdjustment`: CON modifier times 100.  The source comment reads:
"CON mod * 100 reduces losses (negative CON increases losses)". -/
def getConAdjustment (character : StoredCharacter) : Int :=
  character.stats.con * 100

-- ===========================================================================
-- Phase transitions (engine.ts)
-- ===========================================================================

/-- `PHASE_FLOW`: successor of each phase, `none` at `quarter_end`. -/
def PHASE_FLOW : Phase → Option Phase
  | .assignment => some .first_trip
  | .first_trip => some .first_client
  | .first_client => some .crossroads
  | .crossroads => some .quarter_event
  | .quarter_event => some .vp_meeting
  | .vp_meeting => some .whale_prep
  | .whale_prep => some .whale
  | .whale => some .quarter_end
  | .quarter_end => none

/-- `tickModifiers`: decrement every duration, drop the expired ones. -/
def tickModifiers (modifiers : List ActiveModifier) : List ActiveModifier :=
  (modifiers.map fun m => { m with phasesRemaining := m.phasesRemaining - 1 }).filter
    fun m => decide (0 < m.phasesRemaining)

/-- `advancePhase`: step to the next phase, ticking modifiers and applying the
Wood element's passive income; at the terminal phase it returns the state with
`endedAt` set (it does not throw). -/
def advancePhase (state : SalesGameState) : SalesGameState :=
  match PHASE_FLOW state.currentPhase with
  | none => { state with endedAt := true }
  | some nextPhase =>
    let newModifiers := tickModifiers state.modifiers
    let newMoney :=
      if state.character.traits.element = Element.wood then state.money + 100
      else state.money
    { state with currentPhase := nextPhase, modifiers := newModifiers, money := newMoney }

-- ===========================================================================
-- Phase 2: journey / drive events (engine.ts)
-- ===========================================================================

/-- A journey-event table entry (the narrative `effect` text is omitted). -/
structure JourneyEvent where
  roll : Int
  name : String
  moneyChange : Int
  buff : Bool := false
deriving DecidableEq

/-- `JOURNEY_EVENTS` (d6). -/
def JOURNEY_EVENTS : List JourneyEvent :=
  [ { roll := 1, name := "delays", moneyChange := 0 }
  , { roll := 2, name := "contacts", moneyChange := 300 }
  , { roll := 3, name := "intel", moneyChange := 0, buff := true }
  , { roll := 4, name := "luggage", moneyChange := -100 }
  , { roll := 5, name := "leads", moneyChange := 500 }
  , { roll := 6, name := "smooth", moneyChange := 0 } ]

/-- `applyJourneyEvent`. -/
def applyJourneyEvent (state : SalesGameState) (roll : Int) : SalesGameState :=
  let event := (JOURNEY_EVENTS.find? fun e => decide (e.roll = roll)).getD
    { roll := 1, name := "delays", moneyChange := 0 }
  let moneyChange := event.moneyChange
  let moneyChange :=
    if moneyChange < 0 ∧ state.character.traits.element = Element.earth then
      max (moneyChange + 200) 0
    else moneyChange
  let moneyChange :=
    if moneyChange < 0 then min 0 (moneyChange + getConAdjustment state.character)
    else moneyChange
  let modifiers :=
    if event.buff then
      state.modifiers ++
        [ { description := "Market Intel: +1 to next pitch", mtype := ModifierKind.buff
            value := 1, source := "journey", phasesRemaining := 2 } ]
    else state.modifiers
  { state with
    money := state.money + moneyChange
    journeyEvent := some event.name
    modifiers := modifiers }

/-- A drive-trouble table entry.  In the source the optional `buff` key is
either `true` (value 1 via the `typeof` check) or the number 2; `0` here
encodes an absent (falsy) buff. -/
structure DriveEvent where
  roll : Int
  name : String
  moneyChange : Int
  buff : Nat := 0
deriving DecidableEq

/-- `DRIVE_TROUBLE_EVENTS` (d6). -/
def DRIVE_TROUBLE_EVENTS : List DriveEvent :=
  [ { roll := 1, name := "breakdown", moneyChange := -400 }
  , { roll := 2, name := "traffic", moneyChange := 0 }
  , { roll := 3, name := "fine", moneyChange := -150 }
  , { roll := 4, name := "shortcut", moneyChange := 100 }
  , { roll := 5, name := "scenic", moneyChange := 0, buff := 1 }
  , { roll := 6, name := "podcasts", moneyChange := 0, buff := 2 } ]

/-- `applyDriveTrouble`. -/
def applyDriveTrouble (state : SalesGameState) (roll : Int) : SalesGameState :=
  let event := (DRIVE_TROUBLE_EVENTS.find? fun e => decide (e.roll = roll)).getD
    { roll := 1, name := "breakdown", moneyChange := -400 }
  let moneyChange := event.moneyChange
  let moneyChange :=
    if moneyChange < 0 ∧ state.character.traits.element = Element.earth then
      max (moneyChange + 200) 0
    else moneyChange
  let moneyChange :=
    if moneyChange < 0 then min 0 (moneyChange + getConAdjustment state.character)
    else moneyChange
  let modifiers :=
    if event.buff ≠ 0 then
      state.modifiers ++
        [ { description := "Drive Bonus: +" ++ toString event.buff ++ " to first pitch"
            mtype := ModifierKind.buff, value := (event.buff : Int)
            source := "drive", phasesRemaining := 2 } ]
    else state.modifiers
  { state with
    money := state.money + moneyChange
    driveTrouble := some event.name
    modifiers := modifiers }

-- ===========================================================================
-- Phase 4: crossroads (engine.ts)
-- ===========================================================================

/-- A crossroads option.  The source's `hunt` entry also carries
`whaleBonus: 4` and `whalePenalty: -2` keys, but no code ever reads them
(the applier pushes the literal values 4 and -2), so they are omitted. -/
structure CrossroadsOption where
  dc : Int
  successMoney : Int
  failMoney : Int
  stat : StatName

/-- `CROSSROADS_OPTIONS`. -/
def CROSSROADS_OPTIONS : CrossroadsChoice → CrossroadsOption
  | .grind => { dc := 10, successMoney := 1500, failMoney := 800, stat := StatName.cha }
  | .climb => { dc := 14, successMoney := 2500, failMoney := 200, stat := StatName.int }
  | .hunt => { dc := 16, successMoney := 0, failMoney := 0, stat := StatName.wis }

/-- `applyCrossroadsChoice`. -/
def applyCrossroadsChoice (state : SalesGameState) (choice : CrossroadsChoice)
    (roll : Int) : SalesGameState :=
  let option := CROSSROADS_OPTIONS choice
  let modifier := state.character.stats.get option.stat
  let total := roll + modifier
  let success := decide (option.dc ≤ total)
  let moneyChange := if success then option.successMoney else option.failMoney
  let modifiers :=
    if choice = CrossroadsChoice.hunt then
      if success then
        state.modifiers ++
          [ { description := "Hunt Success: +4 to Whale negotiations"
              mtype := ModifierKind.buff, value := 4
              source := "hunt", phasesRemaining := 99 } ]
      else
        state.modifiers ++
          [ { description := "Hunt Failure: -2 to Whale negotiations"
              mtype := ModifierKind.debuff, value := -2
              source := "hunt", phasesRemaining := 99 } ]
    else state.modifiers
  { state with
    money := state.money + moneyChange
    crossroadsChoice := some choice
    crossroadsResult := some (if success then "success" else "fail")
    modifiers := modifiers
    choices := state.choices ++
      [ "crossroads:" ++ crossroadsChoiceName choice ++ ":" ++
        (if success then "success" else "fail") ] }

-- ===========================================================================
-- Phase 5: quarter event (engine.ts)
-- ===========================================================================

/-- A quarter-event table entry. -/
structure QuarterEvent where
  roll : Int
  name : String
  moneyChange : Int
deriving DecidableEq

/-- `QUARTER_EVENTS` (d6). -/
def QUARTER_EVENTS : List QuarterEvent :=
  [ { roll := 1, name := "crash", moneyChange := -1500 }
  , { roll := 2, name := "competitor", moneyChange := -1000 }
  , { roll := 3, name := "recall", moneyChange := -500 }
  , { roll := 4, name := "quiet", moneyChange := 0 }
  , { roll := 5, name := "press", moneyChange := 800 }
  , { roll := 6, name := "referral", moneyChange := 500 } ]

/-- `applyQuarterEvent` (the fallback entry is `QUARTER_EVENTS[3]`, "quiet"). -/
def applyQuarterEvent (state : SalesGameState) (roll : Int) : SalesGameState :=
  let event := (QUARTER_EVENTS.find? fun e => decide (e.roll = roll)).getD
    { roll := 4, name := "quiet", moneyChange := 0 }
  let moneyChange := event.moneyChange
  let moneyChange :=
    if moneyChange < 0 ∧ state.character.traits.element = Element.earth then
      max (moneyChange + 200) 0
    else moneyChange
  let moneyChange :=
    if moneyChange < 0 then min 0 (moneyChange + getConAdjustment state.character)
    else moneyChange
  { state with
    money := state.money + moneyChange
    quarterEvent := some event.name }

-- ===========================================================================
-- Phase 7: lucky item (engine.ts)
-- ===========================================================================

/-- A lucky-item table entry. -/
structure LuckyItem where
  roll : Int
  name : String
  moneyChange : Int
  buff : Bool := false
deriving DecidableEq

/-- `LUCKY_ITEMS` (d6). -/
def LUCKY_ITEMS : List LuckyItem :=
  [ { roll := 1, name := "watch", moneyChange := 200 }
  , { roll := 2, name := "spill", moneyChange := -50 }
  , { roll := 3, name := "clover", moneyChange := 0, buff := true }
  , { roll := 4, name := "usb", moneyChange := 0, buff := true }
  , { roll := 5, name := "parking", moneyChange := 0 }
  , { roll := 6, name := "bird", moneyChange := 100 } ]

/-- `applyLuckyItem` (the fallback entry is `LUCKY_ITEMS[4]`, "parking"). -/
def applyLuckyItem (state : SalesGameState) (roll : Int) : SalesGameState :=
  let item := (LUCKY_ITEMS.find? fun i => decide (i.roll = roll)).getD
    { roll := 5, name := "parking", moneyChange := 0 }
  let moneyChange := item.moneyChange
  let moneyChange :=
    if moneyChange < 0 ∧ state.character.traits.element = Element.earth then
      max (moneyChange + 200) 0
    else moneyChange
  let moneyChange :=
    if moneyChange < 0 then min 0 (moneyChange + getConAdjustment state.character)
    else moneyChange
  let modifiers :=
    if item.buff then
      state.modifiers ++
        [ { description := "Lucky Item (" ++ item.name ++ "): +1 to pitches"
            mtype := ModifierKind.buff, value := 1
            source := "lucky", phasesRemaining := 99 } ]
    else state.modifiers
  { state with
    money := state.money + moneyChange
    luckyItem := some item.name
    modifiers := modifiers }

-- ===========================================================================
-- Phase 9: tier calculation (engine.ts)
-- ===========================================================================

/-- `calculateTier`: compute the final tier from the money ratio. -/
def calculateTier (state : SalesGameState) : SalesGameState :=
  let ratio : ℚ := (state.money : ℚ) / (state.startingMoney : ℚ)
  let tier : Tier :=
    if state.money ≤ 0 then Tier.fired
    else if ratio < 1 then Tier.under_review
    else if ratio < SALES_CONFIG.promotionThreshold then Tier.employed
    else if ratio < SALES_CONFIG.legendaryThreshold ∨ ¬ state.legendaryUnlocked then
      Tier.promotion
    else Tier.legendary
  { state with tier := some tier, endedAt := true }

-- ===========================================================================
-- Money helpers (engine.ts)
-- ===========================================================================

/-- `removeMoney`: remove money with Earth element protection and CON
resilience. -/
def removeMoney (state : SalesGameState) (amount : Int) : SalesGameState :=
  let actualLoss := amount
  let actualLoss :=
    if state.character.traits.element = Element.earth then max 0 (amount - 200)
    else actualLoss
  let actualLoss :=
    if 0 < actualLoss then max 0 (actualLoss - getConAdjustment state.character)
    else actualLoss
  { state with money := state.money - actualLoss }

-- ===========================================================================
-- Spirit abilities (engine.ts, useSpiritAbility)
-- ===========================================================================

/-- Result record of `useSpiritAbility` (`narrative` omitted).  The source
returns `moneyGained` only when it is positive (`moneyGained > 0 ?
moneyGained : undefined`), modelled with `Option`. -/
structure SpiritAbilityResult where
  state : SalesGameState
  moneyGained : Option Int
deriving DecidableEq

/-- `useSpiritAbility`: resolve the one-use spirit-animal ability.  Throws
when the ability was already used.  Dynamic dollar amounts inside modifier
descriptions are rendered with `toString` (the source's locale comma
formatting is immaterial: no consumer looks for digits). -/
def useSpiritAbility (state : SalesGameState) :
    Except String SpiritAbilityResult :=
  if state.spiritAbilityUsed then Except.error "Spirit ability already used"
  else
    let wisMod := state.character.stats.wis
    let s1 : SalesGameState := { state with spiritAbilityUsed := true }
    let step : SalesGameState × Int :=
      match state.character.traits.spiritAnimal with
      | .wolf =>
        (s1, max 0 (2000 + wisMod * 500))
      | .bear =>
        ({ s1 with modifiers := s1.modifiers ++
             [ { description := "Bear Presence: Client cannot object this round"
                 mtype := ModifierKind.buff, value := 99
                 source := "spirit", phasesRemaining := 1 } ] }, 0)
      | .eagle =>
        ({ s1 with modifiers := s1.modifiers ++
             [ { description := "Eagle Eye: Auto-succeed next check"
                 mtype := ModifierKind.buff, value := 99
                 source := "spirit", phasesRemaining := 1 } ] }, 0)
      | .dragon =>
        (s1, max 0 (5000 + wisMod * 500))
      | .octopus =>
        ({ s1 with modifiers := s1.modifiers ++
             [ { description := "Octopus Escape: Exit any negotiation without loss"
                 mtype := ModifierKind.buff, value := 0
                 source := "spirit", phasesRemaining := 99 } ] }, 0)
      | .owl =>
        (s1, max 0 (1500 + wisMod * 500))
      | .tiger =>
        let tigerEnhanced := max 0 (3000 + wisMod * 500)
        ({ s1 with modifiers := s1.modifiers ++
             [ { description := "Tiger Strike: +$" ++ toString tigerEnhanced ++ " on next deal"
                 mtype := ModifierKind.buff, value := tigerEnhanced
                 source := "spirit", phasesRemaining := 99 } ] }, 0)
      | .deer =>
        ({ s1 with modifiers := s1.modifiers ++
             [ { description := "Deer Grace: Close current deal at 50%"
                 mtype := ModifierKind.buff, value := 50
                 source := "spirit", phasesRemaining := 1 } ] }, 0)
      | .spider =>
        ({ s1 with modifiers := s1.modifiers ++
             [ { description := "Spider Web: Deal value protected this round"
                 mtype := ModifierKind.buff, value := 0
                 source := "spirit", phasesRemaining := 1 } ] }, 0)
      | .whale =>
        (s1, max 0 (4000 + wisMod * 500))
      | .elephant =>
        let successfulRounds : Int :=
          ((state.firstClientRounds ++ state.whaleRounds).filter
            fun r => decide (0 < r.moneyGained)).length
        let elephantPerSuccess := max 0 (1000 + wisMod * 200)
        (s1, successfulRounds * elephantPerSuccess)
      | .frog =>
        let frogEnhanced := max 0 (800 + wisMod * 100)
        ({ s1 with modifiers := s1.modifiers ++
             [ { description := "Frog Fortune: +$" ++ toString frogEnhanced ++
                   " per round for 3 rounds"
                 mtype := ModifierKind.buff, value := frogEnhanced
                 source := "spirit", phasesRemaining := 3 } ] }, 0)
    let s2 := step.1
    let moneyGained := step.2
    let s3 : SalesGameState :=
      { s2 with
        money := s2.money + moneyGained
        choices := s2.choices ++
          [ "spirit:" ++ spiritAnimalName state.character.traits.spiritAnimal ] }
    Except.ok
      { state := s3
        moneyGained := if 0 < moneyGained then some moneyGained else none }

-- ===========================================================================
-- Negotiation engine (src/lib/sales/negotiation.ts, clients.ts)
-- ===========================================================================

/-- `getTerritoryFavoredStat` (clients.ts): Tech = INT, Retail = CHA,
Finance = WIS. -/
def getTerritoryFavoredStat : Territory → StatName
  | .tech => StatName.int
  | .retail => StatName.cha
  | .finance => StatName.wis

/-- Sublist containment on lists of characters (JavaScript
`String.prototype.includes`). -/
def containsSub : List Char → List Char → Bool
  | _, [] => true
  | [], _ :: _ => false
  | a :: as, p => p.isPrefixOf (a :: as) || containsSub as p

/-- `description.toLowerCase().includes(pat)` for an already-lowercase
pattern `pat`. -/
def descContains (description : String) (pat : String) : Bool :=
  containsSub (description.toList.map Char.toLower) pat.toList

/-- `interpretBodyLanguage`: map a (possibly shifted) d6 to an outcome. -/
def interpretBodyLanguage (roll : Int) : BodyLanguage :=
  if roll = 1 then BodyLanguage.arms_crossed
  else if roll = 2 then BodyLanguage.skeptical
  else if roll = 3 ∨ roll = 4 then BodyLanguage.neutral
  else if roll = 5 then BodyLanguage.interested
  else BodyLanguage.engaged

/-- `applyBodyLanguage`: apply a body-language outcome to a client. -/
def applyBodyLanguage (client : Client) (bodyLanguage : BodyLanguage) : Client :=
  let newPatience :=
    match bodyLanguage with
    | .arms_crossed => max 0 (client.patience - 2)
    | _ => client.patience
  let newResistance :=
    match bodyLanguage with
    | .arms_crossed => client.resistance + 1
    | .skeptical => client.resistance + 2
    | .neutral => client.resistance
    | .interested => max 5 (client.resistance - 1)
    | .engaged => max 5 (client.resistance - 2)
  let dealBonus : Int :=
    match bodyLanguage with
    | .engaged => Int.floor ((client.dealValue : ℚ) * 0.1)
    | _ => 0
  { client with
    patience := newPatience
    resistance := newResistance
    dealValue := client.dealValue + dealBonus
    active := decide (0 < newPatience) }

/-- `shiftBodyLanguageRoll`: DEX shift every round, WIS shift from round 2,
clamped to `[1, 6]`. -/
def shiftBodyLanguageRoll (rawRoll dexMod wisMod negotiationRound : Int) : Int :=
  let shift := Int.fdiv dexMod 2
  let shift := if 2 ≤ negotiationRound then shift + Int.fdiv wisMod 2 else shift
  max 1 (min 6 (rawRoll + shift))

/-- `getPitchModifier`: max of CHA and the territory's favored stat, plus INT
from round 2, plus pitch-related buffs (source `travel` or `listen`, or a
description containing "pitch"). -/
def getPitchModifier (character : StoredCharacter) (territory : Territory)
    (modifiers : List ActiveModifier) (negotiationRound : Int) : Int :=
  let mod := character.stats.cha
  let favoredMod := character.stats.get (getTerritoryFavoredStat territory)
  let mod := if mod < favoredMod then favoredMod else mod
  let mod := if 2 ≤ negotiationRound then mod + character.stats.int else mod
  modifiers.foldl
    (fun acc m =>
      if m.mtype = ModifierKind.buff ∧
          (m.source = "travel" ∨ m.source = "listen" ∨
            descContains m.description "pitch" = true) then
        acc + m.value
      else acc)
    mod

/-- `calculatePitchValue`: deal value earned by a successful pitch. -/
def calculatePitchValue (client : Client) (rollTotal : Int)
    (modifiers : List ActiveModifier) (strModifier : Int) : Int :=
  let margin := rollTotal - client.resistance
  let baseValue : Int := Int.floor ((client.budget : ℚ) * 0.15)
  let marginBonus : ℚ := min ((margin : ℚ) * 0.05) 0.25
  let value : Int := Int.floor ((baseValue : ℚ) * (1 + marginBonus))
  let value := value + strModifier * 100
  let value := modifiers.foldl
    (fun acc m =>
      if m.mtype = ModifierKind.buff ∧
          (m.source = "element" ∨ descContains m.description "deal" = true) then
        acc + m.value
      else acc)
    value
  max value 100

/-- Result of `resolvePitch` (`narrative` omitted). -/
structure PitchResult where
  client : Client
  moneyGained : Int
  bodyLanguage : BodyLanguage
deriving DecidableEq

/-- `resolvePitch`: roll d20 + pitch modifier vs resistance, apply body
language and — on success — the pitch value; patience drops by 1 either way. -/
def resolvePitch (state : SalesGameState) (client : Client)
    (pitchRoll bodyLanguageRoll negotiationRound : Int) : PitchResult :=
  let modifier := getPitchModifier state.character client.territory
    state.modifiers negotiationRound
  let total := pitchRoll + modifier
  let success := decide (client.resistance ≤ total)
  let strMod := state.character.stats.str
  let dexMod := state.character.stats.dex
  let wisMod := state.character.stats.wis
  let shiftedBodyRoll := shiftBodyLanguageRoll bodyLanguageRoll dexMod wisMod
    negotiationRound
  let bodyLanguage := interpretBodyLanguage shiftedBodyRoll
  let updatedClient := applyBodyLanguage client bodyLanguage
  let moneyGained :=
    if success then calculatePitchValue client total state.modifiers strMod else 0
  let updatedClient :=
    if success then
      { updatedClient with
          dealValue := updatedClient.dealValue + moneyGained
          patience := max 0 (updatedClient.patience - 1) }
    else
      { updatedClient with patience := max 0 (updatedClient.patience - 1) }
  let updatedClient :=
    if updatedClient.patience ≤ 0 then { updatedClient with active := false }
    else updatedClient
  { client := updatedClient, moneyGained := moneyGained, bodyLanguage := bodyLanguage }

/-- Result of `resolveListen` (`narrative` omitted). -/
structure ListenResult where
  client : Client
  modifier : ActiveModifier
  bodyLanguage : BodyLanguage
deriving DecidableEq

/-- `resolveListen`: no pitch roll; applies the body-language outcome and
returns a one-round `+2 to next pitch` buff. -/
def resolveListen (state : SalesGameState) (client : Client)
    (bodyLanguageRoll negotiationRound : Int) : ListenResult :=
  let dexMod := state.character.stats.dex
  let wisMod := state.character.stats.wis
  let shiftedBodyRoll := shiftBodyLanguageRoll bodyLanguageRoll dexMod wisMod
    negotiationRound
  let bodyLanguage := interpretBodyLanguage shiftedBodyRoll
  let updatedClient := applyBodyLanguage client bodyLanguage
  let modifier : ActiveModifier :=
    { description := "Listen Bonus: +2 to next pitch"
      mtype := ModifierKind.buff, value := 2
      source := "listen", phasesRemaining := 1 }
  { client := updatedClient, modifier := modifier, bodyLanguage := bodyLanguage }

/-- `resolveConcede`: close at 80% of the accumulated deal value. -/
def resolveConcede (client : Client) : Client × Int :=
  let concedeValue : Int := Int.floor ((client.dealValue : ℚ) * 0.8)
  ({ client with active := false }, concedeValue)

-- ===========================================================================
-- Dice derivation (src/lib/dice.ts, deriveDice)
-- ===========================================================================

/-- JavaScript `ToInt32`: reduce an integer into `[-2^31, 2^31)`. -/
def toInt32 (n : Int) : Int :=
  let m := n % 4294967296
  if m < 2147483648 then m else m - 4294967296

/-- One step of the `deriveDice` hash loop:
`hash = ((hash << 5) - hash) + char; hash = hash & hash;`.
`hash << 5` is `ToInt32` of 32 times the (already 32-bit) hash, the sum is
exact double arithmetic, and `hash & hash` coerces the result back through
`ToInt32`. -/
def hashStep (hash : Int) (char : Nat) : Int :=
  toInt32 (toInt32 (hash * 32) - hash + (char : Int))

/-- The accumulated hash of a string, as a list of UTF-16 code units
(`charCodeAt` values). -/
def hashString (chars : List Nat) : Int :=
  chars.foldl hashStep 0

/-- `deriveDice`: deterministic dice derivation.  Strings are modelled as
lists of UTF-16 code units; `hash >>> 0` is the nonnegative residue
mod `2^32`, and `%` on nonnegative JavaScript integers is `Nat.mod`. -/
def deriveDice (seed blockHash label : List Nat) (dieSize : Nat) : Nat :=
  let combined := seed ++ blockHash ++ label
  let hash := hashString combined
  let positive := (hash % 4294967296).toNat
  positive % dieSize + 1

-- ===========================================================================
-- Specification-side definitions (for refinement comparisons)
-- ===========================================================================

/-- Tier function exactly as the specification words it: `ratio =
money/startingMoney`; `money <= 0 -> Fired`; `ratio < 1.0 -> UnderReview`;
`ratio < 2.0 -> Employed`; `ratio < 3.0 OR legendary not unlocked ->
Promotion`; else `Legendary`.  To be compared with `calculateTier`. -/
def tierSpec (money startingMoney : Int) (legendaryUnlocked : Bool) : Tier :=
  let ratio : ℚ := (money : ℚ) / (startingMoney : ℚ)
  if money ≤ 0 then Tier.fired
  else if ratio < 1 then Tier.under_review
  else if ratio < 2 then Tier.employed
  else if ratio < 3 ∨ ¬ legendaryUnlocked then Tier.promotion
  else Tier.legendary

/-- The sum of active deal-type buffs, exactly the filter used inside
`calculatePitchValue`. -/
def dealBuffSum (modifiers : List ActiveModifier) : Int :=
  modifiers.foldl
    (fun acc m =>
      if m.mtype = ModifierKind.buff ∧
          (m.source = "element" ∨ descContains m.description "deal" = true) then
        acc + m.value
      else acc)
    0

/-- Pitch value exactly as claim C6 words it — a SINGLE floor over the whole
product: `floor(budget*0.15 * (1 + min(0.25, 0.05*margin))) + STR_mod*100`
plus deal-type buffs, clamped below at 100.  To be compared with
`calculatePitchValue`. -/
def claim6ClaimValue (client : Client) (rollTotal : Int)
    (modifiers : List ActiveModifier) (strModifier : Int) : Int :=
  let margin := rollTotal - client.resistance
  max (Int.floor ((client.budget : ℚ) * 0.15 * (1 + min ((margin : ℚ) * 0.05) 0.25)) +
      strModifier * 100 + dealBuffSum modifiers) 100

/-- Pitch value as the amended claim words it — the budget share is floored
FIRST (`floor(budget*0.15)`) and the margin multiplier is floored again, as
the code does. -/
def claim6AmendedValue (client : Client) (rollTotal : Int)
    (modifiers : List ActiveModifier) (strModifier : Int) : Int :=
  let margin := rollTotal - client.resistance
  max (Int.floor ((Int.floor ((client.budget : ℚ) * 0.15) : ℚ) *
        (1 + min ((margin : ℚ) * 0.05) 0.25)) +
      strModifier * 100 + dealBuffSum modifiers) 100

-- ===========================================================================
-- Concrete instances used by the claim theorems
-- ===========================================================================

/-- All six stat modifiers zero. -/
def zeroStats : StatBlock := ⟨0, 0, 0, 0, 0, 0⟩

/-- A neutral character: zero modifiers, Fire element, Wolf spirit. -/
def baselineChar : StoredCharacter := ⟨zeroStats, ⟨Element.fire, SpiritAnimal.wolf⟩⟩

/-- A fresh game state for the neutral character. -/
def baselineState : SalesGameState := { character := baselineChar, money := 5000 }

/-- A non-Earth character with CON modifier -1, in a state holding $5000. -/
def conNegState : SalesGameState :=
  { character := ⟨{ zeroStats with con := -1 }, ⟨Element.fire, SpiritAnimal.wolf⟩⟩
    money := 5000 }

/-- An Earth-element character with CON modifier 0, in a state holding $5000. -/
def earthState : SalesGameState :=
  { character := ⟨zeroStats, ⟨Element.earth, SpiritAnimal.wolf⟩⟩, money := 5000 }

/-- A character with CHA modifier +2 (all else zero), holding $5000. -/
def huntState : SalesGameState :=
  { character := ⟨{ zeroStats with cha := 2 }, ⟨Element.fire, SpiritAnimal.wolf⟩⟩
    money := 5000 }

/-- The tech first-client template with budget 3000 and resistance 12. -/
def demoClient : Client :=
  { name := "StartupBot Inc.", territory := Territory.tech, patience := 5
    maxPatience := 5, budget := 3000, resistance := 12, dealValue := 0, active := true }

/-- The same client with budget 3010 (a budget whose 15% share is not an
integer, reachable through budget scaling). -/
def wideClient : Client := { demoClient with budget := 3010 }

/-- A state sitting in the terminal phase. -/
def quarterEndState : SalesGameState :=
  { character := baselineChar, currentPhase := Phase.quarter_end, money := 12000 }

/-- A state whose spirit ability has already been used. -/
def usedState : SalesGameState :=
  { character := baselineChar, spiritAbilityUsed := true }

/-- A Wolf character with WIS modifier -10 (so the Wolf award clamps to 0). -/
def wolfLowWisState : SalesGameState :=
  { character := ⟨{ zeroStats with wis := -10 }, ⟨Element.fire, SpiritAnimal.wolf⟩⟩ }

/-- The result of `useSpiritAbility` on `wolfLowWisState`: the award
`max 0 (2000 - 10*500)` is 0, so no money moves and nothing is reported. -/
def wolfLowWisResult : SpiritAbilityResult :=
  { state :=
      { wolfLowWisState with
        spiritAbilityUsed := true
        money := 10000
        choices := ["spirit:Wolf"] }
    moneyGained := none }

-- ===========================================================================
-- Helper lemmas
-- ===========================================================================

/-- `applyBodyLanguage` changes patience only under arms-crossed, by 2,
floored at 0. -/
theorem applyBodyLanguage_patience (c : Client) (bl : BodyLanguage) :
    (applyBodyLanguage c bl).patience =
      (if bl = BodyLanguage.arms_crossed then max 0 (c.patience - 2) else c.patience) := by
  cases bl <;> rfl

/-- `applyBodyLanguage` recomputes the active flag as `patience > 0`. -/
theorem applyBodyLanguage_active (c : Client) (bl : BodyLanguage) :
    (applyBodyLanguage c bl).active = decide (0 < (applyBodyLanguage c bl).patience) := by
  cases bl <;> rfl

/-- Patience after a pitch: the body-language change (2 under arms-crossed)
plus the unconditional decrement of 1, floored at 0. -/
theorem resolvePitch_patience (s : SalesGameState) (c : Client) (pr br rd : Int) :
    (resolvePitch s c pr br rd).client.patience =
      max 0 (c.patience -
        (if interpretBodyLanguage
            (shiftBodyLanguageRoll br s.character.stats.dex s.character.stats.wis rd) =
            BodyLanguage.arms_crossed then 3 else 1)) := by
  simp only [resolvePitch]
  split_ifs with hs hp hp <;>
    simp only [applyBodyLanguage_patience] <;>
    split_ifs <;> omega

/-- After a pitch the client is active exactly when its patience is
positive. -/
theorem resolvePitch_active (s : SalesGameState) (c : Client) (pr br rd : Int) :
    (resolvePitch s c pr br rd).client.active =
      decide (0 < (resolvePitch s c pr br rd).client.patience) := by
  have hAct := applyBodyLanguage_active c
    (interpretBodyLanguage (shiftBodyLanguageRoll br s.character.stats.dex s.character.stats.wis rd))
  simp only [resolvePitch]
  split_ifs with hs hp hp
  · dsimp only at hp ⊢
    exact (decide_eq_false (by omega)).symm
  · dsimp only at hp ⊢
    rw [hAct, decide_eq_decide]
    omega
  · dsimp only at hp ⊢
    exact (decide_eq_false (by omega)).symm
  · dsimp only at hp ⊢
    rw [hAct, decide_eq_decide]
    omega

/-- Patience after a listen: only the body-language change applies (there is
no unconditional decrement in `resolveListen`). -/
theorem resolveListen_patience (s : SalesGameState) (c : Client) (br rd : Int) :
    (resolveListen s c br rd).client.patience =
      (if interpretBodyLanguage
          (shiftBodyLanguageRoll br s.character.stats.dex s.character.stats.wis rd) =
          BodyLanguage.arms_crossed then max 0 (c.patience - 2) else c.patience) := by
  simp only [resolveListen, applyBodyLanguage_patience]

/-- After a listen the client is active exactly when its patience is
positive. -/
theorem resolveListen_active (s : SalesGameState) (c : Client) (br rd : Int) :
    (resolveListen s c br rd).client.active =
      decide (0 < (resolveListen s c br rd).client.patience) := by
  simp only [resolveListen, applyBodyLanguage_active]

/-- Adding a nonnegative amount never loses money, and reporting it through
the positivity filter yields a nonnegative value. -/
theorem money_getD_helper (m X : Int) (hX : 0 ≤ X) :
    m ≤ m + X ∧ 0 ≤ (if 0 < X then some X else none).getD 0 := by
  constructor
  · omega
  · split_ifs with hg
    · simpa using hX
    · simp

/-- Folding an accumulator-additive function from any start value shifts by
the start value. -/
theorem foldl_add_shift (g : ActiveModifier → Int) :
    ∀ (l : List ActiveModifier) (b : Int),
      l.foldl (fun acc m => acc + g m) b = b + l.foldl (fun acc m => acc + g m) 0
  | [], b => by simp
  | m :: rest, b => by
    simp only [List.foldl_cons]
    rw [foldl_add_shift g rest (b + g m), foldl_add_shift g rest (0 + g m)]
    omega

/-- The deal-buff fold of `calculatePitchValue` equals its start value plus
`dealBuffSum`. -/
theorem dealBuff_foldl_shift (l : List ActiveModifier) (b : Int) :
    l.foldl
      (fun acc m =>
        if m.mtype = ModifierKind.buff ∧
            (m.source = "element" ∨ descContains m.description "deal" = true) then
          acc + m.value
        else acc)
      b = b + dealBuffSum l := by
  have hfun :
      (fun (acc : Int) (m : ActiveModifier) =>
        if m.mtype = ModifierKind.buff ∧
            (m.source = "element" ∨ descContains m.description "deal" = true) then
          acc + m.value
        else acc) =
      (fun acc m =>
        acc + (if m.mtype = ModifierKind.buff ∧
            (m.source = "element" ∨ descContains m.description "deal" = true) then
          m.value else 0)) := by
    funext acc m
    split_ifs <;> omega
  rw [dealBuffSum, hfun, foldl_add_shift]

-- ===========================================================================
-- Claim C1
-- ===========================================================================

/-- C1, counterexample: the claimed formula `max(0, L - max(0, CON_mod*100))`
is wrong for a negative CON modifier.  With CON modifier -1 and a loss of
100, `removeMoney` subtracts 200 (the code enlarges losses for negative CON),
while the claimed formula predicts a loss of 100. -/
theorem claim1_counterexample :
    (removeMoney conNegState 100).money ≠
      conNegState.money - max 0 (100 - max 0 (getConAdjustment conNegState.character)) := by
  decide

/-- C1, amended: for a non-Earth character and a setback `L ≥ 0`, the loss
subtracted by `removeMoney` is `max(0, L - CON_mod*100)` when `L > 0` (the
CON adjustment is NOT clamped below at 0, so a negative CON modifier enlarges
the loss) and 0 when `L = 0`.  The loss is always nonnegative, and it is at
most `L` whenever the CON modifier is nonnegative.  The CON step of the
phase-event appliers behaves the same way, shown for the quarter-event market
crash (roll 1, loss 1500). -/
theorem claim1_amended (s : SalesGameState) (L : Int) (hL : 0 ≤ L)
    (hE : s.character.traits.element ≠ Element.earth) :
    (s.money - (removeMoney s L).money =
        if 0 < L then max 0 (L - getConAdjustment s.character) else 0) ∧
      0 ≤ s.money - (removeMoney s L).money ∧
      (0 ≤ s.character.stats.con → s.money - (removeMoney s L).money ≤ L) ∧
      s.money - (applyQuarterEvent s 1).money =
        max 0 (1500 - getConAdjustment s.character) := by
  have h1 : s.money - (removeMoney s L).money =
      (if 0 < L then max 0 (L - getConAdjustment s.character) else 0) := by
    simp only [removeMoney, if_neg hE]
    split_ifs with h <;> omega
  have h4 : s.money - (applyQuarterEvent s 1).money =
      max 0 (1500 - getConAdjustment s.character) := by
    have hev : (QUARTER_EVENTS.find? fun e => decide (e.roll = 1)) =
        some { roll := 1, name := "crash", moneyChange := -1500 } := rfl
    have hC : ¬((-1500 : Int) < 0 ∧ s.character.traits.element = Element.earth) :=
      fun h => hE h.2
    simp only [applyQuarterEvent, hev, Option.getD_some, if_neg hC]
    rw [if_pos (by norm_num)]
    omega
  refine ⟨h1, ?_, ?_, h4⟩
  · rw [h1]
    split_ifs <;> omega
  · intro hcon
    have hadj : 0 ≤ getConAdjustment s.character := by
      simpa [getConAdjustment] using mul_nonneg hcon (by norm_num : (0:Int) ≤ 100)
    rw [h1]
    split_ifs <;> omega

/-- C1, witness: the amended statement instantiated at the CON -1 state and
a loss of 100. -/
theorem claim1_witness :
    (conNegState.money - (removeMoney conNegState 100).money =
        if (0 : Int) < 100 then max 0 (100 - getConAdjustment conNegState.character) else 0) ∧
      0 ≤ conNegState.money - (removeMoney conNegState 100).money ∧
      (0 ≤ conNegState.character.stats.con →
        conNegState.money - (removeMoney conNegState 100).money ≤ 100) ∧
      conNegState.money - (applyQuarterEvent conNegState 1).money =
        max 0 (1500 - getConAdjustment conNegState.character) :=
  claim1_amended conNegState 100 (by norm_num) (by decide)

-- ===========================================================================
-- Claim C2
-- ===========================================================================

/-- C2, code evaluated at the failing input: an Earth-element character hit
by the journey event `luggage` (roll 4, a $100 setback) GAINS $100, because
`applyJourneyEvent` computes `max(moneyChange + 200, 0)` = `max(100, 0)` =
+100 instead of flooring the reduced loss at 0 (`removeMoney`, by contrast,
implements the same rule correctly and leaves the money unchanged). -/
theorem claim2_code_eval :
    (applyJourneyEvent earthState 4).money = 5100 ∧
      earthState.money < (applyJourneyEvent earthState 4).money ∧
      (removeMoney earthState 100).money = earthState.money := by
  decide

-- ===========================================================================
-- Claim C3
-- ===========================================================================

/-- C3: `calculateTier` is exactly the specification's tier function of
final money, starting money and the legendary-unlock flag, and the boundary
cases behave as claimed: money equal to twice the starting money gives
Promotion (legendary unlocked or not), and money equal to three times the
starting money gives Legendary when legendary is unlocked and Promotion
otherwise. -/
theorem claim3_tier (s : SalesGameState) (h : 0 < s.startingMoney) :
    (calculateTier s).tier = some (tierSpec s.money s.startingMoney s.legendaryUnlocked) ∧
      (s.money = 2 * s.startingMoney → (calculateTier s).tier = some Tier.promotion) ∧
      (s.money = 3 * s.startingMoney →
        (calculateTier s).tier =
          some (if s.legendaryUnlocked then Tier.legendary else Tier.promotion)) := by
  refine ⟨rfl, ?_, ?_⟩
  · intro hm
    have hr : (s.money : ℚ) / (s.startingMoney : ℚ) = 2 := by
      rw [hm]
      push_cast
      rw [mul_div_assoc, div_self (by positivity), mul_one]
    simp only [calculateTier, SALES_CONFIG, hr]
    rw [if_neg (by omega), if_neg (by norm_num), if_neg (by norm_num),
      if_pos (Or.inl (by norm_num))]
  · intro hm
    have hr : (s.money : ℚ) / (s.startingMoney : ℚ) = 3 := by
      rw [hm]
      push_cast
      rw [mul_div_assoc, div_self (by positivity), mul_one]
    simp only [calculateTier, SALES_CONFIG, hr]
    rw [if_neg (by omega), if_neg (by norm_num), if_neg (by norm_num)]
    cases hl : s.legendaryUnlocked <;> simp [hl]

/-- C3, witness: at the baseline state (starting money 10000, money 5000,
legendary locked) the tier is the specification tier, and the two boundary
implications are vacuously instantiable. -/
theorem claim3_witness :
    (calculateTier baselineState).tier =
        some (tierSpec baselineState.money baselineState.startingMoney
          baselineState.legendaryUnlocked) ∧
      (baselineState.money = 2 * baselineState.startingMoney →
        (calculateTier baselineState).tier = some Tier.promotion) ∧
      (baselineState.money = 3 * baselineState.startingMoney →
        (calculateTier baselineState).tier =
          some (if baselineState.legendaryUnlocked then Tier.legendary else Tier.promotion)) :=
  claim3_tier baselineState (by decide)

-- ===========================================================================
-- Claim C4
-- ===========================================================================

/-- C4, counterexample: a listen action does NOT decrease patience by at
least 1 — on a neutral body-language read (roll 3, no shift for a
zero-modifier character) the client's patience is unchanged at 5. -/
theorem claim4_counterexample :
    (resolveListen baselineState demoClient 3 1).client.patience = demoClient.patience ∧
      demoClient.patience = 5 := by
  decide

/-- C4, amended: a pitch decreases patience by exactly 1, plus 2 more under
arms-crossed, floored at 0 (hence strictly, given positive patience); a
listen changes patience only through the body-language outcome (2 under
arms-crossed, else unchanged), so it never increases patience; and after
either action the client is active exactly when its patience is positive. -/
theorem claim4_amended (s : SalesGameState) (c : Client)
    (pitchRoll bodyRoll round : Int) (hc : 1 ≤ c.patience) :
    ((resolvePitch s c pitchRoll bodyRoll round).client.patience =
        max 0 (c.patience -
          (if interpretBodyLanguage
              (shiftBodyLanguageRoll bodyRoll s.character.stats.dex
                s.character.stats.wis round) =
              BodyLanguage.arms_crossed then 3 else 1))) ∧
      (resolvePitch s c pitchRoll bodyRoll round).client.patience < c.patience ∧
      ((resolvePitch s c pitchRoll bodyRoll round).client.active =
        decide (0 < (resolvePitch s c pitchRoll bodyRoll round).client.patience)) ∧
      ((resolveListen s c bodyRoll round).client.patience =
        (if interpretBodyLanguage
            (shiftBodyLanguageRoll bodyRoll s.character.stats.dex
              s.character.stats.wis round) =
            BodyLanguage.arms_crossed then max 0 (c.patience - 2) else c.patience)) ∧
      (resolveListen s c bodyRoll round).client.patience ≤ c.patience ∧
      ((resolveListen s c bodyRoll round).client.active =
        decide (0 < (resolveListen s c bodyRoll round).client.patience)) := by
  refine ⟨resolvePitch_patience s c pitchRoll bodyRoll round, ?_,
    resolvePitch_active s c pitchRoll bodyRoll round,
    resolveListen_patience s c bodyRoll round, ?_,
    resolveListen_active s c bodyRoll round⟩
  · rw [resolvePitch_patience]
    split_ifs <;> omega
  · rw [resolveListen_patience]
    split_ifs <;> omega

/-- C4, witness: the amended statement's strict patience decrease for a
pitch, instantiated at the baseline state and the demo client. -/
theorem claim4_witness :
    (resolvePitch baselineState demoClient 20 3 1).client.patience <
      demoClient.patience :=
  (claim4_amended baselineState demoClient 20 3 1 (by decide)).2.1

-- ===========================================================================
-- Claim C5
-- ===========================================================================

/-- C5, code evaluated at the failing input: a hunt success (roll 16, WIS 0,
DC 16) pays no money and inserts the `source := "hunt"` buff of value 4, as
claimed — but `getPitchModifier` does NOT include it: with the hunt-success
modifier list the pitch modifier is 2 (the bare CHA modifier), identical to
the empty modifier list, and the hunt-failure debuff (roll 3) is likewise
ignored.  The claim's final conjunct is therefore false. -/
theorem claim5_code_eval :
    (applyCrossroadsChoice huntState CrossroadsChoice.hunt 16).money = huntState.money ∧
      (applyCrossroadsChoice huntState CrossroadsChoice.hunt 16).modifiers =
        [ { description := "Hunt Success: +4 to Whale negotiations"
            mtype := ModifierKind.buff, value := 4
            source := "hunt", phasesRemaining := 99 } ] ∧
      getPitchModifier huntState.character Territory.tech
        (applyCrossroadsChoice huntState CrossroadsChoice.hunt 16).modifiers 1 = 2 ∧
      getPitchModifier huntState.character Territory.tech [] 1 = 2 ∧
      (applyCrossroadsChoice huntState CrossroadsChoice.hunt 3).money = huntState.money ∧
      getPitchModifier huntState.character Territory.tech
        (applyCrossroadsChoice huntState CrossroadsChoice.hunt 3).modifiers 1 = 2 := by
  decide

-- ===========================================================================
-- Claim C6
-- ===========================================================================

/-- C6, counterexample: the claimed single-floor formula differs from the
code.  For budget 3010 and margin 1 (roll total 13 against resistance 12,
STR 0, no buffs) the code computes `floor(floor(451.5) * 1.05) = 473`, while
the claim's `floor(451.5 * 1.05) = 474`. -/
theorem claim6_counterexample :
    calculatePitchValue wideClient 13 [] 0 = 473 ∧
      claim6ClaimValue wideClient 13 [] 0 = 474 ∧
      calculatePitchValue wideClient 13 [] 0 ≠ claim6ClaimValue wideClient 13 [] 0 := by
  refine ⟨?_, ?_, ?_⟩
  · norm_num [calculatePitchValue, wideClient, demoClient, List.foldl]
  · norm_num [claim6ClaimValue, wideClient, demoClient, dealBuffSum, List.foldl]
  · norm_num [calculatePitchValue, claim6ClaimValue, wideClient, demoClient,
      dealBuffSum, List.foldl]

/-- C6, amended: the successful-pitch value is
`floor(floor(budget*0.15) * (1 + min(0.25, 0.05*margin))) + STR_mod*100`
plus deal-type buffs, clamped below at $100 — the budget share is floored
before the margin multiplier is applied; the claim's concrete scenario
(budget 3000, resistance 12, roll total 15, STR +3, value 817) holds. -/
theorem claim6_amended :
    (∀ (c : Client) (t : Int) (m : List ActiveModifier) (str : Int),
        calculatePitchValue c t m str = claim6AmendedValue c t m str) ∧
      calculatePitchValue demoClient 15 [] 3 = 817 := by
  constructor
  · intro c t m str
    simp only [calculatePitchValue, claim6AmendedValue, dealBuff_foldl_shift]
  · norm_num [calculatePitchValue, demoClient, List.foldl]

-- ===========================================================================
-- Claim C7
-- ===========================================================================

/-- C7, counterexample: `advancePhase` on a `quarter_end` state does not
raise — it returns normally, with the phase unchanged, the money unchanged
and only the ended marker set. -/
theorem claim7_counterexample :
    (advancePhase quarterEndState).endedAt = true ∧
      (advancePhase quarterEndState).currentPhase = Phase.quarter_end ∧
      (advancePhase quarterEndState).money = quarterEndState.money := by
  decide

/-- C7, amended: on any state in the terminal phase, `advancePhase` returns
the same state with the ended marker set — no error is raised, no modifier
tick and no Wood income happen. -/
theorem claim7_amended (s : SalesGameState) (h : s.currentPhase = Phase.quarter_end) :
    advancePhase s = { s with endedAt := true } := by
  simp [advancePhase, h, PHASE_FLOW]

/-- C7, witness: the amended statement at the concrete terminal state. -/
theorem claim7_witness :
    advancePhase quarterEndState = { quarterEndState with endedAt := true } :=
  claim7_amended quarterEndState rfl

-- ===========================================================================
-- Claim C8
-- ===========================================================================

/-- C8: `useSpiritAbility` throws when the spirit-ability-used flag is
already set, and a successful invocation (flag clear) returns a state whose
flag is set. -/
theorem claim8_guard (s : SalesGameState) :
    (s.spiritAbilityUsed = true →
        useSpiritAbility s = Except.error "Spirit ability already used") ∧
      (s.spiritAbilityUsed = false →
        (useSpiritAbility s).map (fun r => r.state.spiritAbilityUsed) =
          Except.ok true) := by
  constructor
  · intro h
    simp [useSpiritAbility, h]
  · intro h
    rw [useSpiritAbility, if_neg (by simp [h])]
    cases hsp : s.character.traits.spiritAnimal <;> simp [Except.map, hsp]

/-- C8, witness: the guard at a used state and a fresh state. -/
theorem claim8_witness :
    useSpiritAbility usedState = Except.error "Spirit ability already used" ∧
      (useSpiritAbility baselineState).map (fun r => r.state.spiritAbilityUsed) =
        Except.ok true :=
  ⟨(claim8_guard usedState).1 rfl, (claim8_guard baselineState).2 rfl⟩

-- ===========================================================================
-- Claim C9
-- ===========================================================================

/-- C9: `deriveDice` is a pure function — equal inputs give equal outputs —
and for every die size of at least 1 the result lies in `[1, dieSize]`. -/
theorem claim9_derive (seed blockHash label : List Nat) (d : Nat) (hd : 1 ≤ d) :
    deriveDice seed blockHash label d = deriveDice seed blockHash label d ∧
      1 ≤ deriveDice seed blockHash label d ∧
      deriveDice seed blockHash label d ≤ d := by
  refine ⟨rfl, Nat.le_add_left 1 _, ?_⟩
  have hm : ((hashString (seed ++ blockHash ++ label)) % 4294967296).toNat % d < d :=
    Nat.mod_lt _ (by omega)
  simp only [deriveDice]
  omega

/-- C9, witness: a concrete derivation with a d6. -/
theorem claim9_witness :
    deriveDice [104, 101, 120] [97, 98] [116, 49] 6 =
        deriveDice [104, 101, 120] [97, 98] [116, 49] 6 ∧
      1 ≤ deriveDice [104, 101, 120] [97, 98] [116, 49] 6 ∧
      deriveDice [104, 101, 120] [97, 98] [116, 49] 6 ≤ 6 :=
  claim9_derive [104, 101, 120] [97, 98] [116, 49] 6 (by norm_num)

-- ===========================================================================
-- Claim C10
-- ===========================================================================

/-- C10: a successful `useSpiritAbility` never decreases money, and the
money gain it reports is never negative — every WIS-scaled award is clamped
below at 0, for every spirit animal and every WIS modifier. -/
theorem claim10_nonneg (s : SalesGameState) (r : SpiritAbilityResult)
    (h : useSpiritAbility s = Except.ok r) :
    s.money ≤ r.state.money ∧ 0 ≤ r.moneyGained.getD 0 := by
  by_cases hu : s.spiritAbilityUsed
  · simp [useSpiritAbility, hu] at h
  · rw [useSpiritAbility, if_neg hu] at h
    cases hsp : s.character.traits.spiritAnimal <;>
      rw [hsp] at h <;>
      injection h with h <;>
      subst h <;>
      dsimp only <;>
      first
        | exact money_getD_helper _ _ (le_max_left 0 _)
        | exact money_getD_helper _ _ (le_refl 0)
        | exact money_getD_helper _ _ (mul_nonneg (Int.natCast_nonneg _) (le_max_left 0 _))

/-- C10, witness: the Wolf ability at WIS -10, whose award clamps to 0. -/
theorem claim10_witness :
    wolfLowWisState.money ≤ wolfLowWisResult.state.money ∧
      0 ≤ wolfLowWisResult.moneyGained.getD 0 :=
  claim10_nonneg wolfLowWisState wolfLowWisResult (by rfl)

end Sales
